import Mathlib

/-!
Verification of `springboard_functions.py`: a shallow embedding of the
footfall-data collection pipeline, together with theorems settling the
specification claims about it.

The embedding follows the source file function by function:

* `get_new_data` models the response-processing part of the Python
  function of the same name (the HTTP call itself is external; the model
  takes the `<table>` element extracted by BeautifulSoup, or `none` when
  `soup.find` returned no table).
* `inDayTotal` / `outDayTotal` / `rowInOutMax` / `groupedValue` model the
  aggregation block (the `transform("sum")` columns, the `InOutMax`
  column, and the `groupby(...).aggregate("first")` collapse).
* `url` models the request-URL string literal with its backslash line
  continuations, which carry the indentation of the continuation lines
  into the string.
* `Springboard_data` models the driver of the same name, with the
  historical-store file threaded explicitly as state.
* `to_csv` / `read_data` model saving and re-loading the historical
  table at the level of CSV fields (rows of cell strings).

Machine integers do not occur: the counts are unbounded Python ints,
modelled as `Int`/`Nat`.  Python exceptions are modelled as `Except`
values of type `PyErr`.
-/

/-- Failures a run of the Python code can raise: the custom
`SpringboardError` (with its message), the `ValueError` that
`pd.to_numeric` raises on a non-numeric cell (the malformed-data
failure), and any other unhandled Python runtime error identified by its
class name (`TypeError`, `UnboundLocalError`, `KeyError`, ...). -/
inductive PyErr where
  | springboard (msg : String)
  | toNumericError
  | pyRuntime (name : String)
deriving DecidableEq, Repr

/-- One data row of the upstream HTML table after parsing: the
`LocationName`, `FootfallDate` and `FootfallTime` cell texts and the
numeric `InCount` / `OutCount` values. -/
structure RawRow where
  location : String
  date : String
  time : String
  inCount : Int
  outCount : Int
deriving DecidableEq, Repr

/-- The `InDayTotal` column of the source:
`new_data.groupby(["LocationName","FootfallDate"])["InCount"].transform("sum")`,
i.e. the sum of `InCount` over every row sharing the given location and
date text. -/
def inDayTotal (rows : List RawRow) (loc date : String) : Int :=
  ((rows.filter fun r => r.location == loc && r.date == date).map (·.inCount)).sum

/-- The `OutDayTotal` column of the source, analogously. -/
def outDayTotal (rows : List RawRow) (loc date : String) : Int :=
  ((rows.filter fun r => r.location == loc && r.date == date).map (·.outCount)).sum

/-- The `InOutMax` column: `max(InDayTotal, OutDayTotal)` of the row,
where both day totals are group-wide sums attached to every row of the
group by `transform("sum")`. -/
def rowInOutMax (rows : List RawRow) (r : RawRow) : Int :=
  max (inDayTotal rows r.location r.date) (outDayTotal rows r.location r.date)

/-- The cell of `grouped_df` for a (date, location) pair:
`groupby(["FootfallDate","LocationName"])["InOutMax"].aggregate("first")`
takes the `InOutMax` value of the first row of the group in input order;
`none` when the response has no row for the pair. -/
def groupedValue (rows : List RawRow) (date loc : String) : Option Int :=
  (rows.find? fun r => r.date == date && r.location == loc).map (rowInOutMax rows)

/-- The cell after `unstack().fillna(0).astype("int")`: absent pairs
become 0. -/
def groupedCell (rows : List RawRow) (date loc : String) : Int :=
  (groupedValue rows date loc).getD 0

/-- The `<table>` element extracted from the response, as the model sees
it: `childCount` is `len(table)` in BeautifulSoup (the number of child
nodes of the element), and `rows` holds, for each `<tr>`, the stripped
non-empty `<td>` texts (the source drops empty cells with
`[ele for ele in cols if ele]`). -/
structure RawTable where
  childCount : Nat
  rows : List (List String)
deriving DecidableEq, Repr

/-- A cell text `pd.to_numeric` accepts, modelled as a non-empty digit
string. -/
def isNumericStr (s : String) : Bool :=
  !s.data.isEmpty && s.data.all (·.isDigit)

/-- Whether `pd.to_numeric` succeeds on column `i`: every row's cell at
index `i` is numeric.  A row with no cell at that index holds `NaN` in
the DataFrame, which `to_numeric` accepts. -/
def columnNumericOk (body : List (List String)) (i : Nat) : Bool :=
  body.all fun r =>
    match r.get? i with
    | some s => isNumericStr s
    | none => true

/-- Numeric value of a digit character (junk on other characters; only
applied to characters of checked-numeric cells or of rendered digits). -/
def charDigit (c : Char) : Nat := c.toNat - 48

/-- Decimal value of a big-endian digit-character list. -/
def charsToNat (l : List Char) : Nat :=
  l.foldl (fun acc c => 10 * acc + charDigit c) 0

/-- Integer value of a checked-numeric cell, as `pd.to_numeric` computes
it. -/
def parseCount (s : String) : Int :=
  (charsToNat s.data : Int)

/-- Model of `get_new_data` from the point where the response has been
parsed by BeautifulSoup.  Input: the first `<table>` element, or `none`
when the document has no table (then `len(table)` raises `TypeError`).
The branches mirror the source exactly:

* `len(table) == 3` raises `SpringboardError` (no data returned);
* `len(table) > 3` builds the DataFrame from the rows (an empty row list
  makes `data[0]` raise `IndexError`), then iterates over
  `["InCount", "OutCount"]` in order, for each raising `SpringboardError`
  if the column is absent and otherwise converting it with
  `pd.to_numeric` (which raises on a non-numeric cell) — so a malformed
  `InCount` cell raises before the `OutCount` membership test runs; the
  later datetime-combination and groupby steps need the `LocationName`,
  `FootfallDate` and `FootfallTime` columns and raise `KeyError` when one
  is missing; on success the data rows become the parsed events that the
  aggregation block consumes;
* any other length falls through both branches and `return grouped_df`
  raises `UnboundLocalError`. -/
def get_new_data (table : Option RawTable) : Except PyErr (List RawRow) :=
  match table with
  | none => .error (.pyRuntime "TypeError")
  | some t =>
    if t.childCount = 3 then
      .error (.springboard "No data returned by API; check credentials.")
    else if t.childCount > 3 then
      match t.rows with
      | [] => .error (.pyRuntime "IndexError")
      | header :: body =>
        match header.findIdx? (· == "InCount") with
        | none => .error (.springboard "Required columns not returned by the API request.")
        | some i =>
          if columnNumericOk body i then
            match header.findIdx? (· == "OutCount") with
            | none => .error (.springboard "Required columns not returned by the API request.")
            | some j =>
              if columnNumericOk body j then
                match header.findIdx? (· == "LocationName"),
                      header.findIdx? (· == "FootfallDate"),
                      header.findIdx? (· == "FootfallTime") with
                | some li, some di, some ti =>
                  .ok (body.map fun r =>
                    { location := r.getD li "", date := r.getD di "",
                      time := r.getD ti "",
                      inCount := parseCount (r.getD i ""),
                      outCount := parseCount (r.getD j "") })
                | _, _, _ => .error (.pyRuntime "KeyError")
              else .error .toNumericError
          else .error .toNumericError
    else .error (.pyRuntime "UnboundLocalError")

/-- The request URL built by `get_new_data`.  The Python string literal
is continued over five physical lines with trailing backslashes; the
four leading spaces of each continuation line are part of the literal,
so they appear in the URL before `&userpassword=`, `&startdate=`,
`&enddate=` and `&changestartdate=`. -/
def url (user password startdate enddate : String) : String :=
  "https://performv4.spring-board.info/outputs/footfalloutput.aspx?useremail=" ++ user
    ++ "    &userpassword=" ++ password
    ++ "    &startdate=" ++ startdate
    ++ "    &enddate=" ++ enddate
    ++ "    &changestartdate=19970101&changeenddate=20970101"

/-- The historical DataFrame as the driver manipulates it: a
datetime-day index (modelled as `Int` days, so that `+ timedelta(1)` is
`+ 1` and `datetime.now() - timedelta(1)` is `now - 1`), one column per
location, and an optional integer cell per (row, location) — `none` is
`NaN`. -/
structure DTable where
  locations : List String
  rows : List (Int × List (Option Int))
deriving DecidableEq, Repr

/-- The dates of the rows where the primary-location column is not null:
`ff_to_date[ff_to_date[primary_camera_name].notnull()].index`.  `none`
when the column is absent. -/
def primaryDates (t : DTable) (primary : String) : Option (List Int) :=
  (t.locations.findIdx? (· == primary)).map fun i =>
    (t.rows.filter fun r => (r.2.getD i none).isSome).map (·.1)

/-- `latest_date`: the max of the primary-location dates, when the
column exists and some date is not null. -/
def latestPrimary (t : DTable) (primary : String) : Option Int :=
  (primaryDates t primary).bind List.max?

/-- `pd.concat([ff_to_date, grouped_df])`: the columns are the union in
first-appearance order, the rows are stacked with cells realigned to the
combined column list (a column a frame lacks gives `NaN`). -/
def concatT (a b : DTable) : DTable :=
  let cols := a.locations ++ b.locations.filter (fun c => !a.locations.contains c)
  let realign := fun (src : List String) (cells : List (Option Int)) =>
    cols.map fun c =>
      match src.findIdx? (· == c) with
      | some i => cells.getD i none
      | none => none
  { locations := cols,
    rows := (a.rows.map fun r => (r.1, realign a.locations r.2))
              ++ (b.rows.map fun r => (r.1, realign b.locations r.2)) }

/-- Outcome of one driver run: the new table was written over the store,
the store was already up to date (no write), or a Python error was
raised (no write). -/
inductive RunResult where
  | saved (t : DTable)
  | alreadyCurrent
  | raised (e : PyErr)
deriving DecidableEq, Repr

/-- Model of the driver `Springboard_data`.  The historical-store file is
threaded explicitly: `store` is its content at entry (`none` = the file
does not exist, so `read_data` raises `FileNotFoundError`), and the
second component of the result is its content when the run ends.  The
fetch (the whole `get_new_data` call, HTTP included) is an oracle from
the requested day range to a grouped table or a raised error.

Branches, mirroring the source:

* file missing: the `except FileNotFoundError` arm sets
  `old_data_found = False`, and the `else` arm then executes
  `startdate = datetime(1997,1,1)` — but `datetime` names the *module*
  here, so this raises `TypeError` before anything else happens;
* file present: `ff_to_date[primary_camera_name]` raises `KeyError` when
  the primary column is absent; `max(...)` over the not-null index
  raises `ValueError` when it is empty; otherwise, with
  `yesterday = now - 1`, a fetch happens only when
  `latest_date + 1 <= yesterday`; a raised fetch error propagates with
  no write; on success `pd.concat` merges and `to_csv` overwrites the
  store; otherwise the driver reports the store up to date and writes
  nothing. -/
def Springboard_data (store : Option DTable) (primary : String)
    (fetch : Int → Int → Except PyErr DTable) (now : Int) :
    RunResult × Option DTable :=
  match store with
  | none => (.raised (.pyRuntime "TypeError"), none)
  | some ff =>
    match ff.locations.findIdx? (· == primary) with
    | none => (.raised (.pyRuntime "KeyError"), some ff)
    | some _ =>
      match latestPrimary ff primary with
      | none => (.raised (.pyRuntime "ValueError"), some ff)
      | some latest =>
        if latest + 1 ≤ now - 1 then
          match fetch (latest + 1) (now - 1) with
          | .error e => (.raised e, some ff)
          | .ok g => (.saved (concatT ff g), some (concatT ff g))
        else (.alreadyCurrent, some ff)

/-- A calendar date as the CSV serialization handles it. -/
structure Date where
  year : Nat
  month : Nat
  day : Nat
deriving DecidableEq, Repr

/-- Decimal rendering of a natural number (`Nat.digits` is little
endian, so the digit list is reversed). -/
def natRepr (n : Nat) : String :=
  ⟨if n = 0 then ['0'] else (Nat.digits 10 n).reverse.map Nat.digitChar⟩

/-- A cell as `to_csv` writes it: blank for `NaN`, decimal digits for an
integer count. -/
def renderCell : Option Nat → String
  | none => ""
  | some n => natRepr n

/-- A cell as `read_csv` reads it back: blank is `NaN`, digits are the
integer. -/
def parseCell (s : String) : Option Nat :=
  if s.data.isEmpty then none else some (charsToNat s.data)

/-- A datetime-day index entry as `to_csv` writes it: ISO
`YYYY-MM-DD` with zero padding. -/
def renderDate (d : Date) : String :=
  ⟨[Nat.digitChar (d.year / 1000 % 10), Nat.digitChar (d.year / 100 % 10),
    Nat.digitChar (d.year / 10 % 10), Nat.digitChar (d.year % 10), '-',
    Nat.digitChar (d.month / 10 % 10), Nat.digitChar (d.month % 10), '-',
    Nat.digitChar (d.day / 10 % 10), Nat.digitChar (d.day % 10)]⟩

/-- An index entry as `pd.to_datetime(..., dayfirst=True)` reads it
back: the ISO form is unambiguous, so `dayfirst` does not reorder the
fields. -/
def parseDate (s : String) : Option Date :=
  match s.data with
  | [y1, y2, y3, y4, h1, m1, m2, h2, d1, d2] =>
    if h1 = '-' && h2 = '-' then
      some { year := ((charDigit y1 * 10 + charDigit y2) * 10 + charDigit y3) * 10 + charDigit y4,
             month := charDigit m1 * 10 + charDigit m2,
             day := charDigit d1 * 10 + charDigit d2 }
    else none
  | _ => none

/-- The persisted historical table: a date index, one column per
location, one optional integer cell per (row, location). -/
structure HistTable where
  dates : List Date
  locations : List String
  cells : List (List (Option Nat))
deriving DecidableEq, Repr

/-- `new_df.to_csv(path, index=True)`, at the level of CSV fields: the
header row is the index name followed by the location columns, and each
data row is the rendered date followed by the rendered cells. -/
def to_csv (t : HistTable) : List (List String) :=
  ("Date" :: t.locations) ::
    List.zipWith (fun d row => renderDate d :: row.map renderCell) t.dates t.cells

/-- One data row as `read_data` parses it. -/
def parseRow (r : List String) : Option (Date × List (Option Nat)) :=
  match r with
  | [] => none
  | d :: cs => (parseDate d).map fun dd => (dd, cs.map parseCell)

/-- `read_data`: `pd.read_csv(path, index_col=0)` takes the first header
field as the index name (discarded) and the rest as the location
columns, and parses each data row's first field as a date (made a proper
datetime by `pd.to_datetime`) and the rest as cells. -/
def read_data (csv : List (List String)) : Option HistTable :=
  match csv with
  | [] => none
  | header :: body =>
    (body.mapM parseRow).map fun prs =>
      { dates := prs.map Prod.fst,
        locations := header.drop 1,
        cells := prs.map Prod.snd }

/-- Whether the `InCount` column, when present, converts cleanly with
`pd.to_numeric` (when absent the conversion never runs, so this is
vacuously true). -/
def inCountNumericIfPresent (header : List String) (body : List (List String)) : Bool :=
  match header.findIdx? (· == "InCount") with
  | none => true
  | some i => columnNumericOk body i

/-- The two-row fixture of the end-to-end scenario in the spec: one
camera, one date, both rows with `in = 30`, `out = 20`. -/
def exRows : List RawRow :=
  [{ location := "CameraA", date := "2020-01-02", time := "00:00", inCount := 30, outCount := 20 },
   { location := "CameraA", date := "2020-01-02", time := "01:00", inCount := 30, outCount := 20 }]

/-- A response table whose header lacks `OutCount` and whose one data
row has a non-numeric `InCount` cell. -/
def tableNoOut : RawTable :=
  { childCount := 6,
    rows := [["LocationName", "FootfallDate", "FootfallTime", "InCount"],
             ["CameraA", "01-01-2020", "01:00", "abc"]] }

/-- A response table whose header lacks `OutCount`, with a numeric
`InCount` cell. -/
def tableNoOutNum : RawTable :=
  { childCount := 6,
    rows := [["LocationName", "FootfallDate", "FootfallTime", "InCount"],
             ["CameraA", "01-01-2020", "01:00", "30"]] }

/-- A degenerate response table: `len(table) == 3`, header row only. -/
def tableHeaderOnly : RawTable :=
  { childCount := 3,
    rows := [["LocationName", "FootfallDate", "FootfallTime", "InCount", "OutCount"]] }

/-- A response table with fewer than 3 child nodes. -/
def tableTooShort : RawTable := { childCount := 2, rows := [] }

/-- A loaded historical table: one camera column, data through day 5. -/
def exHist : DTable := { locations := ["CameraA"], rows := [(5, [some 100])] }

/-- An aggregated fetch result: the camera has a value on day 9. -/
def exGrouped : DTable := { locations := ["CameraA"], rows := [(9, [some 30])] }

/-- The merge of `exHist` and `exGrouped`, as a successful run saves it. -/
def exMerged : DTable := concatT exHist exGrouped

/-- A fetch oracle that always succeeds with `exGrouped`. -/
def fetchOk : Int → Int → Except PyErr DTable := fun _ _ => .ok exGrouped

/-- A fetch oracle that always raises (a transport failure, say). -/
def fetchFail : Int → Int → Except PyErr DTable := fun _ _ => .error (.pyRuntime "ConnectionError")

/-- A small historical table with an integer cell, a blank cell and a
zero cell. -/
def exTable : HistTable :=
  { dates := [⟨2020, 1, 1⟩, ⟨2020, 1, 2⟩],
    locations := ["CameraA", "CameraB"],
    cells := [[some 100, none], [some 30, some 0]] }

/-- When `find?` locates a first row of the (date, location) group, the
grouped cell is the max of the group-wide sums: the `transform("sum")`
day totals are the same for every row of the group, so which row
`aggregate("first")` picks cannot matter. -/
lemma groupedValue_eq_max (rows : List RawRow) (date loc : String) (r : RawRow)
    (h : rows.find? (fun r => r.date == date && r.location == loc) = some r) :
    groupedValue rows date loc =
      some (max (inDayTotal rows loc date) (outDayTotal rows loc date)) := by
  have hp := List.find?_some h
  simp only [Bool.and_eq_true, beq_iff_eq] at hp
  simp [groupedValue, h, rowInOutMax, hp.1, hp.2]

/-- Any member of the (date, location) group makes the grouped cell the
max of the group sums. -/
lemma groupedValue_of_mem (rows : List RawRow) (date loc : String) (r : RawRow)
    (hr : r ∈ rows) (h1 : r.date = date) (h2 : r.location = loc) :
    groupedValue rows date loc =
      some (max (inDayTotal rows loc date) (outDayTotal rows loc date)) := by
  have hs : (rows.find? (fun r => r.date == date && r.location == loc)).isSome :=
    List.find?_isSome.mpr ⟨r, hr, by simp [h1, h2]⟩
  obtain ⟨r', hr'⟩ := Option.isSome_iff_exists.mp hs
  exact groupedValue_eq_max rows date loc r' hr'

/-- When the loaded table's latest primary-location day `L` satisfies
`yesterday < L + 1`, the driver reaches its `else` branch: no fetch, no
write, "already up to date". -/
lemma alreadyCurrent_of_fresh (ff : DTable) (primary : String)
    (fetch : Int → Int → Except PyErr DTable) (now L : Int)
    (hL : latestPrimary ff primary = some L) (hlt : now - 1 < L + 1) :
    Springboard_data (some ff) primary fetch now = (.alreadyCurrent, some ff) := by
  have hidx : (ff.locations.findIdx? (· == primary)).isSome := by
    unfold latestPrimary primaryDates at hL
    cases h : ff.locations.findIdx? (· == primary) with
    | none => rw [h] at hL; simp at hL
    | some k => simp
  obtain ⟨k, hk⟩ := Option.isSome_iff_exists.mp hidx
  simp only [Springboard_data, hk, hL]
  rw [if_neg (by omega)]

/-- Digit characters decode back to their digit. -/
lemma charDigit_digitChar (d : Nat) (h : d < 10) : charDigit (Nat.digitChar d) = d := by
  interval_cases d <;> rfl

/-- Decoding a big-endian rendering of a digit list accumulates to its
`Nat.ofDigits` value. -/
lemma foldl_digitChars (ds : List Nat) (a : Nat) (h : ∀ d ∈ ds, d < 10) :
    List.foldl (fun acc c => 10 * acc + charDigit c) a (ds.reverse.map Nat.digitChar)
      = Nat.ofDigits 10 ds + a * 10 ^ ds.length := by
  induction ds generalizing a with
  | nil => simp [Nat.ofDigits]
  | cons d rest ih =>
    have hd : d < 10 := h d (by simp)
    have hrest : ∀ x ∈ rest, x < 10 := fun x hx => h x (by simp [hx])
    simp only [List.reverse_cons, List.map_append, List.foldl_append, List.map_cons,
      List.map_nil, List.foldl_cons, List.foldl_nil, ih a hrest,
      charDigit_digitChar d hd, Nat.ofDigits_cons, List.length_cons]
    ring

/-- Decimal rendering then decoding is the identity on `Nat`. -/
lemma charsToNat_natRepr (n : Nat) : charsToNat (natRepr n).data = n := by
  by_cases h : n = 0
  · subst h; rfl
  · have hdata : (natRepr n).data = (Nat.digits 10 n).reverse.map Nat.digitChar := by
      simp [natRepr, h]
    rw [hdata]
    unfold charsToNat
    rw [foldl_digitChars _ 0 (fun d hd => Nat.digits_lt_base (by norm_num) hd)]
    simp [Nat.ofDigits_digits]

/-- A rendered number is never the blank cell. -/
lemma natRepr_data_ne_nil (n : Nat) : (natRepr n).data ≠ [] := by
  by_cases h : n = 0
  · subst h; simp [natRepr]
  · simp only [natRepr, if_neg h]
    intro hc
    have hc' : (Nat.digits 10 n).reverse.map Nat.digitChar = [] := hc
    simp only [List.map_eq_nil_iff, List.reverse_eq_nil_iff] at hc'
    exact Nat.digits_ne_nil_iff_ne_zero.mpr h hc'

/-- Cell round trip: writing a cell and reading it back is the
identity (blank stays blank, an integer stays itself). -/
lemma parseCell_renderCell (c : Option Nat) : parseCell (renderCell c) = c := by
  cases c with
  | none => rfl
  | some n =>
    simp only [renderCell, parseCell]
    rw [if_neg (by simp [natRepr_data_ne_nil n]), charsToNat_natRepr]

/-- Date round trip: the ISO rendering of an in-range date parses back
to the same date. -/
lemma parseDate_renderDate (d : Date) (hy : d.year < 10000) (hm : d.month < 100)
    (hd : d.day < 100) : parseDate (renderDate d) = some d := by
  have h10 : ∀ k : Nat, k % 10 < 10 := fun k => Nat.mod_lt _ (by norm_num)
  simp only [renderDate, parseDate]
  rw [if_pos (by decide)]
  congr 1
  have e1 := charDigit_digitChar (d.year / 1000 % 10) (h10 _)
  have e2 := charDigit_digitChar (d.year / 100 % 10) (h10 _)
  have e3 := charDigit_digitChar (d.year / 10 % 10) (h10 _)
  have e4 := charDigit_digitChar (d.year % 10) (h10 _)
  have e5 := charDigit_digitChar (d.month / 10 % 10) (h10 _)
  have e6 := charDigit_digitChar (d.month % 10) (h10 _)
  have e7 := charDigit_digitChar (d.day / 10 % 10) (h10 _)
  have e8 := charDigit_digitChar (d.day % 10) (h10 _)
  rw [e1, e2, e3, e4, e5, e6, e7, e8]
  cases d with
  | mk y m dd =>
    simp only at hy hm hd ⊢
    congr 1 <;> [skip; skip; skip] <;> omega

/-- Row round trip: a written data row parses back to its date and
cells. -/
lemma parseRow_rendered (d : Date) (c : List (Option Nat))
    (hy : d.year < 10000) (hm : d.month < 100) (hd : d.day < 100) :
    parseRow (renderDate d :: c.map renderCell) = some (d, c) := by
  simp only [parseRow, parseDate_renderDate d hy hm hd, Option.map_some']
  congr 2
  rw [List.map_map]
  have : ∀ x ∈ c, (parseCell ∘ renderCell) x = id x := fun x _ => parseCell_renderCell x
  rw [List.map_congr_left this, List.map_id]

/-- Body round trip: parsing every written data row succeeds and
recovers the zipped dates and cell rows. -/
lemma mapM_parseRow_rendered (ds : List Date) (cs : List (List (Option Nat)))
    (hb : ∀ d ∈ ds, d.year < 10000 ∧ d.month < 100 ∧ d.day < 100) :
    (List.zipWith (fun d row => renderDate d :: row.map renderCell) ds cs).mapM parseRow
      = some (ds.zip cs) := by
  induction ds generalizing cs with
  | nil => rfl
  | cons d ds ih =>
    cases cs with
    | nil => rfl
    | cons c cs =>
      have hd := hb d (by simp)
      simp only [List.zipWith_cons_cons, List.mapM_cons,
        parseRow_rendered d c hd.1 hd.2.1 hd.2.2,
        ih cs (fun x hx => hb x (by simp [hx])), List.zip_cons_cons]
      rfl

/-- Claim C1, counterexample.  The claim says that for a fetch returning
exactly two rows for one camera on one date, both with `in = 30` and
`out = 20`, the aggregated value is `max(30, 20) = 30` (the first row's
own max).  The code instead sums the duplicates into the day totals
before taking the max: the value is `max(30+30, 20+20) = 60`, not 30. -/
theorem tie_break_first_row_refuted :
    groupedValue exRows "2020-01-02" "CameraA" = some 60 ∧
      groupedValue exRows "2020-01-02" "CameraA" ≠ some 30 := by decide

/-- Claim C1, amended.  For every response with two or more data rows
sharing a (date, location), the aggregated value for that pair is
`max(sum of the group's in-counts, sum of the group's out-counts)`: the
`transform("sum")` totals are group-wide, so the first-row pick of
`aggregate("first")` never selects a single row's own counts. -/
theorem duplicate_rows_aggregate_max_of_sums (rows : List RawRow) (date loc : String)
    (h : 2 ≤ (rows.filter fun r => r.location == loc && r.date == date).length) :
    groupedValue rows date loc =
      some (max (inDayTotal rows loc date) (outDayTotal rows loc date)) := by
  have hne : rows.filter (fun r => r.location == loc && r.date == date) ≠ [] := by
    intro hnil
    rw [hnil] at h
    simp at h
  obtain ⟨r, hr⟩ := List.exists_mem_of_ne_nil _ hne
  have hm := List.mem_filter.mp hr
  have hp := hm.2
  simp only [Bool.and_eq_true, beq_iff_eq] at hp
  exact groupedValue_of_mem rows date loc r hm.1 hp.2 hp.1

/-- Witness for the amended claim C1 at the two-row fixture. -/
theorem duplicate_rows_aggregate_max_of_sums_witness :
    2 ≤ (exRows.filter fun r => r.location == "CameraA" && r.date == "2020-01-02").length ∧
      groupedValue exRows "2020-01-02" "CameraA" =
        some (max (inDayTotal exRows "CameraA" "2020-01-02")
          (outDayTotal exRows "CameraA" "2020-01-02")) :=
  ⟨by decide, duplicate_rows_aggregate_max_of_sums exRows "2020-01-02" "CameraA" (by decide)⟩

/-- Claim C2 (a bug in the code, with the claim stating the evident
intent).  When the historical store file does not exist, the claim says
the run recovers, sets the start date to 1 January 1997 and proceeds to
fetch, merge and save.  In the source, the recovery arm runs
`startdate = datetime(1997,1,1)` where `datetime` is the *module* (the
class is `datetime.datetime`), so the NoHistory path raises `TypeError`
before any fetch — and line 179 would reference the unbound
`latest_date` even if it did not. -/
theorem missing_store_raises_module_call_error (primary : String)
    (fetch : Int → Int → Except PyErr DTable) (now : Int) :
    Springboard_data none primary fetch now = (.raised (.pyRuntime "TypeError"), none) := rfl

/-- Claim C3.  For every parsed event sequence and every (date,
location) pair with at least one event, the aggregated value is
`max(sum of the group's in-counts, sum of the group's out-counts)`,
grouping on the raw `FootfallDate` text (the combined timestamp column
is never consulted by the groupby). -/
theorem group_value_is_max_of_group_sums (rows : List RawRow) (date loc : String)
    (h : ∃ r ∈ rows, r.date = date ∧ r.location = loc) :
    groupedValue rows date loc =
      some (max (inDayTotal rows loc date) (outDayTotal rows loc date)) := by
  obtain ⟨r, hr, h1, h2⟩ := h
  exact groupedValue_of_mem rows date loc r hr h1 h2

/-- Witness for claim C3 at the two-row fixture. -/
theorem group_value_is_max_of_group_sums_witness :
    (∃ r ∈ exRows, r.date = "2020-01-02" ∧ r.location = "CameraA") ∧
      groupedValue exRows "2020-01-02" "CameraA" =
        some (max (inDayTotal exRows "CameraA" "2020-01-02")
          (outDayTotal exRows "CameraA" "2020-01-02")) :=
  ⟨⟨exRows.head (by decide), by decide⟩,
    group_value_is_max_of_group_sums exRows "2020-01-02" "CameraA"
      ⟨exRows.head (by decide), by decide⟩⟩

/-- Claim C4.  Whenever a run raises any failure — during fetch, parse
or aggregation (the fetch oracle covers all of `get_new_data`), or even
earlier — it aborts before the write step: the historical store content
at the end of the run is exactly its content at the start.  The only
branch that changes the store is the one returning `saved`. -/
theorem raised_failure_leaves_store_unchanged (store : Option DTable) (primary : String)
    (fetch : Int → Int → Except PyErr DTable) (now : Int) (e : PyErr)
    (h : (Springboard_data store primary fetch now).1 = .raised e) :
    (Springboard_data store primary fetch now).2 = store := by
  cases store with
  | none => rfl
  | some ff =>
    simp only [Springboard_data] at h ⊢
    cases hi : ff.locations.findIdx? (· == primary) with
    | none => simp [hi]
    | some k =>
      cases hl : latestPrimary ff primary with
      | none => simp [hi, hl]
      | some latest =>
        simp only [hi, hl] at h ⊢
        by_cases hle : latest + 1 ≤ now - 1
        · simp only [if_pos hle] at h ⊢
          cases hf : fetch (latest + 1) (now - 1) with
          | error e2 => simp [hf]
          | ok g => rw [hf] at h; simp at h
        · simp [if_neg hle]

/-- Witness for claim C4: a failing fetch propagates and leaves the
store as it was. -/
theorem raised_failure_leaves_store_unchanged_witness :
    (Springboard_data (some exHist) "CameraA" fetchFail 10).1 =
        .raised (.pyRuntime "ConnectionError") ∧
      (Springboard_data (some exHist) "CameraA" fetchFail 10).2 = some exHist :=
  ⟨by decide,
   raised_failure_leaves_store_unchanged (some exHist) "CameraA" fetchFail 10
     (.pyRuntime "ConnectionError") (by decide)⟩

/-- Claim C5, counterexample.  The claim says a response lacking the
`OutCount` column always fails with the missing-columns error and never
with the malformed-data error, regardless of the other cells.  But the
column loop processes `InCount` first and converts it with
`pd.to_numeric` before ever testing `OutCount` membership: with
`OutCount` absent from the header and a non-numeric `InCount` cell
(`"abc"`), the run raises the to-numeric `ValueError` instead. -/
theorem malformed_incount_preempts_missing_outcount :
    (tableNoOut.rows.headD []).contains "OutCount" = false ∧
      get_new_data (some tableNoOut) = .error .toNumericError :=
  ⟨rfl, rfl⟩

/-- Claim C5, amended.  A response with data rows whose header lacks
`OutCount` fails with the missing-columns `SpringboardError` provided
the `InCount` column, when present, is entirely numeric (when `InCount`
is absent too, the same missing-columns error fires on it first);
otherwise the to-numeric error on `InCount` preempts it. -/
theorem missing_outcount_raises_missing_columns (t : RawTable)
    (header : List String) (body : List (List String))
    (hrows : t.rows = header :: body)
    (hlen : 3 < t.childCount)
    (hout : "OutCount" ∉ header)
    (hin : inCountNumericIfPresent header body = true) :
    get_new_data (some t) =
      .error (.springboard "Required columns not returned by the API request.") := by
  have hne3 : t.childCount ≠ 3 := by omega
  have houtIdx : header.findIdx? (· == "OutCount") = none := by
    rw [List.findIdx?_eq_none_iff]
    intro x hx
    simp only [beq_eq_false_iff_ne, ne_eq]
    intro heq
    exact hout (heq ▸ hx)
  unfold inCountNumericIfPresent at hin
  cases hi : header.findIdx? (· == "InCount") with
  | none => simp [get_new_data, hrows, hne3, hlen, hi]
  | some i =>
    have hnum : columnNumericOk body i = true := by rw [hi] at hin; simpa using hin
    simp [get_new_data, hrows, hne3, hlen, hi, hnum, houtIdx]

/-- Witness for the amended claim C5: numeric `InCount`, no `OutCount`
header, missing-columns error raised. -/
theorem missing_outcount_raises_missing_columns_witness :
    3 < tableNoOutNum.childCount ∧
      "OutCount" ∉ ["LocationName", "FootfallDate", "FootfallTime", "InCount"] ∧
      get_new_data (some tableNoOutNum) =
        .error (.springboard "Required columns not returned by the API request.") :=
  ⟨by decide, by decide,
   missing_outcount_raises_missing_columns tableNoOutNum
     ["LocationName", "FootfallDate", "FootfallTime", "InCount"]
     [["CameraA", "01-01-2020", "01:00", "30"]] rfl (by decide) (by decide) (by decide)⟩

/-- Claim C6.  A response whose table is the degenerate header-only case
the source encodes as `len(table) == 3` raises the no-data
`SpringboardError` with the check-credentials message. -/
theorem header_only_table_raises_no_data (t : RawTable) (h : t.childCount = 3) :
    get_new_data (some t) =
      .error (.springboard "No data returned by API; check credentials.") := by
  simp [get_new_data, h]

/-- Witness for claim C6 at a concrete header-only table. -/
theorem header_only_table_raises_no_data_witness :
    tableHeaderOnly.childCount = 3 ∧
      get_new_data (some tableHeaderOnly) =
        .error (.springboard "No data returned by API; check credentials.") :=
  ⟨rfl, header_only_table_raises_no_data tableHeaderOnly rfl⟩

/-- Claim C7.  First part: a run loaded from history whose latest
primary-location day `L` has `L + 1` after yesterday does no fetch (the
outcome is the same for every fetch oracle), does no write (the store
keeps its content), and ends in the already-current outcome.  Second
part: hence when a first run saves a table whose latest primary day is
yesterday, an immediately repeated run (same clock, any oracle) ends
already-current with no fetch and no write. -/
theorem freshness_check_skips_fetch_and_write :
    (∀ (ff : DTable) (primary : String) (fetch : Int → Int → Except PyErr DTable) (now L : Int),
        latestPrimary ff primary = some L → now - 1 < L + 1 →
        Springboard_data (some ff) primary fetch now = (.alreadyCurrent, some ff)) ∧
      (∀ (ff : DTable) (primary : String) (fetch fetch2 : Int → Int → Except PyErr DTable)
          (now : Int) (t2 : DTable),
        Springboard_data (some ff) primary fetch now = (.saved t2, some t2) →
        latestPrimary t2 primary = some (now - 1) →
        Springboard_data (some t2) primary fetch2 now = (.alreadyCurrent, some t2)) :=
  ⟨fun ff primary fetch now L hL hlt => alreadyCurrent_of_fresh ff primary fetch now L hL hlt,
   fun _ primary _ fetch2 now t2 _ h2 =>
     alreadyCurrent_of_fresh t2 primary fetch2 now (now - 1) h2 (by omega)⟩

/-- Witness for claim C7: a fresh table stays untouched under both a
succeeding and a failing oracle; the second conjunct is obtained by
first running the driver on the stale `exHist` and then again on what it
saved. -/
theorem freshness_check_skips_fetch_and_write_witness :
    Springboard_data (some exMerged) "CameraA" fetchOk 10 = (.alreadyCurrent, some exMerged) ∧
      Springboard_data (some exMerged) "CameraA" fetchFail 10 =
        (.alreadyCurrent, some exMerged) :=
  ⟨freshness_check_skips_fetch_and_write.1 exMerged "CameraA" fetchOk 10 9 (by decide) (by decide),
   freshness_check_skips_fetch_and_write.2 exHist "CameraA" fetchOk fetchFail 10 exMerged
     (by decide) (by decide)⟩

/-- Claim C8.  Saving a historical table and loading it back yields an
equal table — the same dates, the same location columns, the same cell
values — for tables whose dates fit the four-two-two digit rendering and
whose cell grid matches the date index (the integer/blank normalization
is the `renderCell`/`parseCell` pair). -/
theorem save_load_round_trip (t : HistTable)
    (hlen : t.dates.length = t.cells.length)
    (hdates : ∀ d ∈ t.dates, d.year < 10000 ∧ d.month < 100 ∧ d.day < 100) :
    read_data (to_csv t) = some t := by
  obtain ⟨ds, locs, cs⟩ := t
  unfold read_data to_csv
  simp only [mapM_parseRow_rendered ds cs hdates, Option.map_some',
    List.map_fst_zip ds cs (le_of_eq hlen), List.map_snd_zip ds cs (ge_of_eq hlen),
    List.drop_succ_cons, List.drop_zero]

/-- Witness for claim C8 at a concrete table with an integer, a blank
and a zero cell. -/
theorem save_load_round_trip_witness :
    exTable.dates.length = exTable.cells.length ∧
      read_data (to_csv exTable) = some exTable :=
  ⟨by decide, save_load_round_trip exTable (by decide) (by decide)⟩

/-- Claim C9.  When no table element is found, `len(table)` raises
`TypeError`; when the found table's length is strictly below 3, both
branch guards are false and `return grouped_df` raises
`UnboundLocalError`.  In both cases the run fails with an unhandled
Python error, not with the documented `SpringboardError` (the
constructors differ). -/
theorem short_table_raises_unhandled_errors (t : RawTable) (h : t.childCount < 3) :
    get_new_data none = .error (.pyRuntime "TypeError") ∧
      get_new_data (some t) = .error (.pyRuntime "UnboundLocalError") := by
  refine ⟨rfl, ?_⟩
  have h1 : t.childCount ≠ 3 := by omega
  have h2 : ¬ t.childCount > 3 := by omega
  simp [get_new_data, h1, h2]

/-- Witness for claim C9 at a two-child table. -/
theorem short_table_raises_unhandled_errors_witness :
    tableTooShort.childCount < 3 ∧
      (get_new_data none = .error (.pyRuntime "TypeError") ∧
        get_new_data (some tableTooShort) = .error (.pyRuntime "UnboundLocalError")) :=
  ⟨by decide, short_table_raises_unhandled_errors tableTooShort (by decide)⟩

/-- Claim C10.  For every credential pair and date range, the request
URL carries the four literal indentation spaces of each continuation
line immediately before `&userpassword=`, `&startdate=` and
`&enddate=`. -/
theorem url_has_spaces_before_query_params (u p s e : String) :
    (∃ a b, url u p s e = a ++ "    &userpassword=" ++ b) ∧
      (∃ a b, url u p s e = a ++ "    &startdate=" ++ b) ∧
      (∃ a b, url u p s e = a ++ "    &enddate=" ++ b) := by
  refine ⟨⟨"https://performv4.spring-board.info/outputs/footfalloutput.aspx?useremail=" ++ u,
      p ++ "    &startdate=" ++ s ++ "    &enddate=" ++ e
        ++ "    &changestartdate=19970101&changeenddate=20970101", ?_⟩,
    ⟨"https://performv4.spring-board.info/outputs/footfalloutput.aspx?useremail=" ++ u
        ++ "    &userpassword=" ++ p,
      s ++ "    &enddate=" ++ e ++ "    &changestartdate=19970101&changeenddate=20970101", ?_⟩,
    ⟨"https://performv4.spring-board.info/outputs/footfalloutput.aspx?useremail=" ++ u
        ++ "    &userpassword=" ++ p ++ "    &startdate=" ++ s,
      e ++ "    &changestartdate=19970101&changeenddate=20970101", ?_⟩⟩ <;>
    simp [url, String.append_assoc]
